import Mathlib

/-!
Shallow embedding of `slack-to-slashwork` (src/index.ts): a webhook handler
that mirrors Slack channel messages into Slashwork groups via a GraphQL API.
We model the content normalizer (`blockToMarkdown`, `attachmentToMarkdown`,
`buildFullMarkdown`), the GraphQL mutation wrappers (`createPost`,
`createComment`) and the event handler produced by `createSlackWebhook`.

JavaScript conventions modelled explicitly:
* `undefined`-able fields become `Option`;
* string truthiness (`if (s)`) is "present and non-empty";
* `Array.prototype.join` with JS semantics is `joinWith`;
* `.filter(Boolean)` on strings is `List.filter (· ≠ "")`;
* the handler's side effects (response writes, fetches, mapping-store saves)
  are collected in an explicit trace, with the GraphQL responses and the
  mapping store's `find` supplied as oracles.
-/

namespace SlackToSlashwork

/-- JS string truthiness for an optional string: defined and non-empty. -/
def truthy : Option String → Bool
  | some s => s ≠ ""
  | none => false

/-- JS `Array.prototype.join(sep)` on a list of strings. -/
def joinWith (sep : String) : List String → String
  | [] => ""
  | [x] => x
  | x :: xs => x ++ sep ++ joinWith sep xs

/-- A Slack `TextObject` (`{ type, text }`), as read by the code. -/
structure TextObject where
  type : String
  text : String
deriving DecidableEq, Repr

/-- `textObjectToString`: `textObj?.text ?? ""`. -/
def textObjectToString : Option TextObject → String
  | some t => t.text
  | none => ""

/-- An element of a `context` block (`{ type, text?, alt_text? }`). -/
structure ContextEl where
  type : String
  text : Option String := none
  alt_text : Option String := none
deriving DecidableEq, Repr

/-- An inner leaf of a rich-text structure (`{ type, text? }`, links add `url`). -/
structure RichLeaf where
  type : String := ""
  text : Option String := none
  url : Option String := none
deriving DecidableEq, Repr

/-- An element of a `rich_text` node's `elements` array. The source reads
it duck-typed: as a leaf (`text` / `url`) under section, preformatted and
quote nodes, and as a list item (`{ elements }` of leaves) under list
nodes, so it carries both shapes. -/
structure RichChild where
  type : String := ""
  text : Option String := none
  url : Option String := none
  elements : Option (List RichLeaf) := none
deriving DecidableEq, Repr

/-- A `rich_text` top-level element (`{ type, style?, elements? }`). -/
structure RichEl where
  type : String := ""
  style : Option String := none
  elements : Option (List RichChild) := none
deriving DecidableEq, Repr

/-- The Slack blocks the code's `switch` distinguishes, with exactly the
fields each case reads; `unknown` is every other block type. -/
inductive Block where
  | section (text : Option TextObject) (fields : Option (List TextObject))
  | header (text : TextObject)
  | context (elements : List ContextEl)
  | divider
  | markdown (text : Option String)
  | rich_text (elements : Option (List RichEl))
  | image (alt_text : Option String) (title : Option TextObject) (image_url : Option String)
  | unknown
deriving DecidableEq, Repr

/-- An attachment field (`{ title?, value? }`). -/
structure AttachmentField where
  title : Option String := none
  value : Option String := none
deriving DecidableEq, Repr

/-- A legacy `MessageAttachment`, with the fields the code reads. -/
structure MessageAttachment where
  pretext : Option String := none
  author_name : Option String := none
  author_link : Option String := none
  title : Option String := none
  title_link : Option String := none
  text : Option String := none
  fields : Option (List AttachmentField) := none
  footer : Option String := none
  fallback : Option String := none
deriving DecidableEq, Repr

/-- `attachmentToMarkdown`: one attachment to markdown, JS truthiness on
every field read, parts joined by a blank line. -/
def attachmentToMarkdown (attachment : MessageAttachment) : String :=
  let parts : List String := []
  let parts := if truthy attachment.pretext then parts ++ [attachment.pretext.getD ""] else parts
  let parts :=
    if truthy attachment.author_name then
      if truthy attachment.author_link then
        parts ++ ["*[" ++ attachment.author_name.getD "" ++ "](" ++ attachment.author_link.getD "" ++ ")*"]
      else
        parts ++ ["*" ++ attachment.author_name.getD "" ++ "*"]
    else parts
  let parts :=
    if truthy attachment.title then
      if truthy attachment.title_link then
        parts ++ ["**[" ++ attachment.title.getD "" ++ "](" ++ attachment.title_link.getD "" ++ ")**"]
      else
        parts ++ ["**" ++ attachment.title.getD "" ++ "**"]
    else parts
  let parts := if truthy attachment.text then parts ++ [attachment.text.getD ""] else parts
  let parts :=
    match attachment.fields with
    | some fs =>
      if fs.length > 0 then
        let fieldLines := fs.map fun field =>
          if truthy field.title && truthy field.value then
            "**" ++ field.title.getD "" ++ ":** " ++ field.value.getD ""
          else if truthy field.value then
            field.value.getD ""
          else if truthy field.title then
            "**" ++ field.title.getD "" ++ "**"
          else ""
        parts ++ [joinWith "\n" (fieldLines.filter (· ≠ ""))]
      else parts
    | none => parts
  let parts := if truthy attachment.footer then parts ++ ["_" ++ attachment.footer.getD "" ++ "_"] else parts
  let parts :=
    if parts.length = 0 && truthy attachment.fallback then
      parts ++ [attachment.fallback.getD ""]
    else parts
  joinWith "\n\n" parts

/-- `attachmentsToMarkdown`: non-empty renderings joined by a rule separator. -/
def attachmentsToMarkdown (attachments : List MessageAttachment) : String :=
  joinWith "\n\n---\n\n"
    ((attachments.map attachmentToMarkdown).filter (· ≠ ""))

/-- The inline mapper over a `rich_text_section`'s elements:
`text` leaves yield their text, `link` leaves yield `url ?? text ?? ""`,
anything else yields its text. -/
def richSectionLeafToString (el : RichChild) : String :=
  if el.type = "text" then el.text.getD ""
  else if el.type = "link" then
    match el.url with
    | some u => u
    | none => el.text.getD ""
  else el.text.getD ""

/-- One top-level `rich_text` element to its contributed part, if any. -/
def richElToPart (element : RichEl) : Option String :=
  if element.type = "rich_text_section" then
    match element.elements with
    | some els => some (joinWith "" (els.map richSectionLeafToString))
    | none => none
  else if element.type = "rich_text_preformatted" then
    match element.elements with
    | some els => some ("```\n" ++ joinWith "" (els.map fun el => el.text.getD "") ++ "\n```")
    | none => none
  else if element.type = "rich_text_quote" then
    match element.elements with
    | some els => some ("> " ++ joinWith "" (els.map fun el => el.text.getD ""))
    | none => none
  else if element.type = "rich_text_list" then
    match element.elements with
    | some items =>
      let listItems := items.enum.map fun p =>
        let itemText := joinWith "" ((p.2.elements.getD []).map fun el => el.text.getD "")
        (if element.style = some "ordered" then toString (p.1 + 1) ++ ". " else "- ") ++ itemText
      some (joinWith "\n" listItems)
    | none => none
  else none

/-- `blockToMarkdown`: one Slack block to markdown, per the code's `switch`. -/
def blockToMarkdown (block : Block) : String :=
  match block with
  | .section text fields =>
    let parts : List String := []
    let parts :=
      match text with
      | some t => parts ++ [textObjectToString (some t)]
      | none => parts
    let parts :=
      match fields with
      | some fs =>
        if fs.length > 0 then
          let fieldTexts := fs.map fun f => textObjectToString (some f)
          parts ++ [joinWith "\n" (fieldTexts.filter (· ≠ ""))]
        else parts
      | none => parts
    joinWith "\n\n" parts
  | .header text => "## " ++ textObjectToString (some text)
  | .context elements =>
    let contextParts :=
      (elements.map fun el =>
        if el.type = "image" then el.alt_text.getD "" else el.text.getD "").filter (· ≠ "")
    "_" ++ joinWith " | " contextParts ++ "_"
  | .divider => "---"
  | .markdown text => text.getD ""
  | .rich_text elements =>
    let textParts := ((elements.getD []).map richElToPart).reduceOption
    joinWith "\n" textParts
  | .image alt_text title image_url =>
    let altText := alt_text.getD "image"
    let titleStr :=
      match title with
      | some t => textObjectToString (some t)
      | none => altText
    if truthy image_url then "![" ++ titleStr ++ "](" ++ image_url.getD "" ++ ")"
    else "[Image: " ++ titleStr ++ "]"
  | .unknown => ""

/-- `blocksToMarkdown`: non-empty block renderings joined by a blank line. -/
def blocksToMarkdown (blocks : List Block) : String :=
  joinWith "\n\n" ((blocks.map blockToMarkdown).filter (· ≠ ""))

/-- `buildFullMarkdown`: main text, then blocks, then attachments, each
section pushed only when non-empty, joined by a blank line. -/
def buildFullMarkdown (text : String) (attachments : Option (List MessageAttachment))
    (blocks : Option (List Block)) : String :=
  let parts : List String := []
  let parts := if text ≠ "" then parts ++ [text] else parts
  let parts :=
    match blocks with
    | some bs =>
      if bs.length > 0 then
        let blocksMarkdown := blocksToMarkdown bs
        if blocksMarkdown ≠ "" then parts ++ [blocksMarkdown] else parts
      else parts
    | none => parts
  let parts :=
    match attachments with
    | some as_ =>
      if as_.length > 0 then
        let attachmentsMarkdown := attachmentsToMarkdown as_
        if attachmentsMarkdown ≠ "" then parts ++ [attachmentsMarkdown] else parts
      else parts
    | none => parts
  joinWith "\n\n" parts

/-- The GraphQL transport outcome for one mutation request: `ok` is
`response.ok` (2xx status), `status` the numeric status, `errors` the
body's `errors` field (`none` when absent — JS truthiness on the field
means any present array, even `[]`, is truthy), `node_id` is
`result.data?.createPost?.node?.id` (resp. `createComment`). -/
structure GraphQLResponse where
  ok : Bool
  status : Nat
  errors : Option (List String) := none
  node_id : Option String := none
deriving DecidableEq, Repr

/-- `createPost`: throws on non-ok transport status, throws when the body
carries an `errors` field (JS truthiness: present, even if empty), else
returns `result.data?.createPost?.node?.id`. -/
def createPost (response : GraphQLResponse) : Except String (Option String) :=
  if ¬ response.ok then
    .error ("GraphQL request failed: " ++ toString response.status)
  else if response.errors.isSome then
    .error "GraphQL errors"
  else
    .ok response.node_id

/-- `createComment`: same failure logic as `createPost`, returning
`result.data?.createComment?.node?.id`. -/
def createComment (response : GraphQLResponse) : Except String (Option String) :=
  if ¬ response.ok then
    .error ("GraphQL request failed: " ++ toString response.status)
  else if response.errors.isSome then
    .error "GraphQL errors"
  else
    .ok response.node_id

/-- A Slack message event, with the fields the handler probes. -/
structure SlackMessageEvent where
  channel : Option String := none
  text : Option String := none
  ts : Option String := none
  thread_ts : Option String := none
  user : Option String := none
  attachments : Option (List MessageAttachment) := none
  blocks : Option (List Block) := none
deriving DecidableEq, Repr

/-- The inbound request body: URL-verification handshake or an enveloped
message event. -/
inductive SlackWebhookPayload where
  | url_verification (token : String) (challenge : String)
  | enveloped (event : SlackMessageEvent)
deriving DecidableEq, Repr

/-- One call the handler makes on the response object. -/
inductive RespAction where
  | jsonChallenge (status : Nat) (challenge : String)
  | send (status : Nat)
deriving DecidableEq, Repr

/-- The handler's configuration. The mapping store, when configured, is its
`findSlackIdMapping` read function (a fixed consistent view; `saveSlackId`
calls are recorded in the trace). `getSlackUsername` returns `""` for users
it cannot resolve (JS: a falsy username). -/
structure SlackWebhookConfig where
  graphqlEndpoint : String
  bearerToken : String
  groupMappings : String → Option String
  slackIdMap : Option (String → Option String) := none
  getSlackUsername : Option (String → String) := none

/-- Oracles for the destination API: the GraphQL response each mutation
kind would receive for this event. -/
structure DestEnv where
  postResp : GraphQLResponse
  commentResp : GraphQLResponse

/-- Everything observable the handler did for one event, in order. -/
structure HandlerTrace where
  responses : List RespAction := []
  posts : List (String × String) := []
  comments : List (String × String) := []
  saves : List (String × String) := []
deriving DecidableEq, Repr

/-- `const isThreadedReply = threadTs && threadTs !== ts`. -/
def isThreadedReply (threadTs ts : Option String) : Bool :=
  match threadTs with
  | none => false
  | some t => t ≠ "" && some t ≠ ts

/-- The webhook handler built by `createSlackWebhook`, as a pure function
from the payload to its trace of observable actions, with the destination
responses supplied by `env` and the mapping store's reads by
`config.slackIdMap`. -/
def createSlackWebhook (config : SlackWebhookConfig) (env : DestEnv)
    (payload : SlackWebhookPayload) : HandlerTrace :=
  match payload with
  | .url_verification _ challenge =>
    { responses := [.jsonChallenge 200 challenge] }
  | .enveloped event =>
    let ack : List RespAction := [.send 200]
    let channel := event.channel
    if ¬ truthy channel then { responses := ack ++ [.send 200] }
    else
      let groupId := config.groupMappings (channel.getD "")
      if ¬ truthy groupId then { responses := ack ++ [.send 200] }
      else
        let text := event.text.getD ""
        let ts := event.ts
        let threadTs := event.thread_ts
        let userId := event.user
        let reply := isThreadedReply threadTs ts
        let markdown := buildFullMarkdown text event.attachments event.blocks
        let markdown :=
          match config.getSlackUsername, userId with
          | some f, some u =>
            if u ≠ "" then
              let username := f u
              if username ≠ "" then "[" ++ username ++ "] " ++ markdown else markdown
            else markdown
          | _, _ => markdown
        if ¬ truthy ts then
          { responses := ack ++ [.send 400] }
        else
          let threadIdToDedupe := if reply then threadTs.getD "" else ts.getD ""
          let previousSlashId := config.slackIdMap.bind fun find => find threadIdToDedupe
          if truthy previousSlashId then
            { responses := ack ++ [.send 200] }
          else
            if reply then
              match config.slackIdMap with
              | none => { responses := ack ++ [.send 200] }
              | some find =>
                let parentPostId := find (threadTs.getD "")
                if truthy parentPostId then
                  let comments := [(parentPostId.getD "", markdown)]
                  match createComment env.commentResp with
                  | .error _ => { responses := ack, comments := comments }
                  | .ok commentId =>
                    if truthy commentId then
                      { responses := ack, comments := comments,
                        saves := [(threadTs.getD "", commentId.getD "")] }
                    else
                      { responses := ack, comments := comments }
                else
                  { responses := ack }
            else
              let posts := [(groupId.getD "", markdown)]
              match createPost env.postResp with
              | .error _ => { responses := ack, posts := posts }
              | .ok postId =>
                if config.slackIdMap.isSome && truthy ts && truthy postId then
                  { responses := ack, posts := posts,
                    saves := [(ts.getD "", postId.getD "")] }
                else
                  { responses := ack, posts := posts }

/-- Whether a mutation wrapper outcome is a failure (a thrown error). -/
def isFailure : Except String (Option String) → Bool
  | .error _ => true
  | .ok _ => false

/-! Concrete fixtures used by witnesses and counterexamples. -/

/-- A mapping store view holding `"100.1" ↦ "P1"` and nothing else. -/
def findEx : String → Option String :=
  fun k => if k = "100.1" then some "P1" else none

/-- A configuration admitting channel `"C1"` into group `"G1"`, with the
store view `findEx` configured. -/
def cfgEx : SlackWebhookConfig :=
  { graphqlEndpoint := "https://example.test/graphql"
    bearerToken := "tok"
    groupMappings := fun c => if c = "C1" then some "G1" else none
    slackIdMap := some findEx
    getSlackUsername := none }

/-- Destination oracle: both mutations succeed and return fresh ids. -/
def envOk : DestEnv :=
  { postResp := { ok := true, status := 200, node_id := some "NEWP" }
    commentResp := { ok := true, status := 200, node_id := some "NEWC" } }

/-- Destination oracle: both mutations fail at the transport level. -/
def envFail : DestEnv :=
  { postResp := { ok := false, status := 500 }
    commentResp := { ok := false, status := 500 } }

/-- A reply in channel `"C1"` whose thread root `"100.1"` is mapped in `findEx`. -/
def replyEvent : SlackMessageEvent :=
  { channel := some "C1", ts := some "100.2", thread_ts := some "100.1", text := some "reply" }

/-- A root message in channel `"C1"` with an unmapped timestamp. -/
def rootEvent : SlackMessageEvent :=
  { channel := some "C1", ts := some "100.9", text := some "hello", blocks := some [.divider] }

/-- A message event in channel `"C1"` with no `ts` field. -/
def noTsEvent : SlackMessageEvent :=
  { channel := some "C1", text := some "hello" }

/-- C1: the claim says a reply whose thread root is mapped yields exactly one
`createComment` call and a mapping write, the dedup check being independent
of the parent lookup. In the code the dedup key for a reply IS the thread
root, so a mapped parent always triggers the dedup skip first: at this input
the parent `"100.1"` is mapped to `"P1"`, yet the handler performs zero
`createComment` calls and zero saves, responding only with the two 200s of
the dedup-skip path. -/
theorem C1_mapped_reply_dedup_skips :
    findEx "100.1" = some "P1" ∧
    createSlackWebhook cfgEx envOk (.enveloped replyEvent) =
      { responses := [.send 200, .send 200], posts := [], comments := [], saves := [] } :=
  ⟨rfl, rfl⟩

/-- C2 counterexample: for the admitted-channel event with no `ts`, the claim
says the sender observes only the explicit 400 rejection, never both it and
the success acknowledgment; but the handler's response trace is
`[200, 400]` — the unconditional acknowledgment precedes the rejection, so
the responses are not only the rejection. -/
theorem C2_counterexample :
    (createSlackWebhook cfgEx envOk (.enveloped noTsEvent)).responses =
      [.send 200, .send 400] ∧
    (createSlackWebhook cfgEx envOk (.enveloped noTsEvent)).responses ≠
      [.send 400] :=
  ⟨rfl, by decide⟩

/-- C2 amended: an admitted-channel message event with no `ts` yields zero
destination calls and zero saves, and the handler issues a 400 status call,
but only after the unconditional 200 acknowledgment already emitted. -/
theorem C2_no_ts_rejected (config : SlackWebhookConfig) (env : DestEnv)
    (event : SlackMessageEvent) (c g : String)
    (hc : event.channel = some c) (hcne : c ≠ "")
    (hg : config.groupMappings c = some g) (hgne : g ≠ "")
    (hts : event.ts = none) :
    createSlackWebhook config env (.enveloped event) =
      { responses := [.send 200, .send 400], posts := [], comments := [], saves := [] } := by
  simp [createSlackWebhook, hc, hcne, hg, hgne, hts, truthy]

/-- C2 witness: the amended statement instantiated at the concrete
admitted-channel event with no `ts`. -/
theorem C2_no_ts_rejected_witness :
    createSlackWebhook cfgEx envOk (.enveloped noTsEvent) =
      { responses := [.send 200, .send 400], posts := [], comments := [], saves := [] } :=
  C2_no_ts_rejected cfgEx envOk noTsEvent "C1" "G1" rfl (by decide) rfl (by decide) rfl

/-- C3 counterexample: a 2xx transport response whose body carries
`errors: []` (an empty array) makes both `createPost` and `createComment`
throw, whereas the claim says an empty `errors` array is treated as
success. -/
theorem C3_counterexample :
    createPost { ok := true, status := 200, errors := some [], node_id := some "X" } =
      .error "GraphQL errors" ∧
    createComment { ok := true, status := 200, errors := some [], node_id := some "X" } =
      .error "GraphQL errors" :=
  ⟨rfl, rfl⟩

/-- C3 amended: `createPost` and `createComment` fail exactly when the
transport status is non-2xx or the response body's `errors` field is
present at all — emptiness of the array is not consulted. -/
theorem C3_failure_condition (r : GraphQLResponse) :
    isFailure (createPost r) = (!r.ok || r.errors.isSome) ∧
    isFailure (createComment r) = (!r.ok || r.errors.isSome) := by
  unfold createPost createComment
  cases hok : r.ok <;> cases herr : r.errors <;> simp [isFailure]

/-- A rich-text block consisting of one plain section holding one link
element with the given `url` and display `text`. -/
def oneLinkBlock (url text : Option String) : Block :=
  .rich_text (some [{
    type := "rich_text_section",
    elements := some [{ type := "link", url := url, text := text }] }])

/-- C4 counterexample: a rich-text link that carries both a URL and separate
display text renders as the URL, not the display text — the claim says the
display text would be used rather than the URL. -/
theorem C4_counterexample :
    blockToMarkdown (oneLinkBlock (some "https://x") (some "click")) = "https://x" ∧
    ("https://x" : String) ≠ "click" :=
  ⟨rfl, by decide⟩

/-- C4 amended: inside a rich-text plain section, a link element renders as
its URL whenever a URL is present — the display text is ignored in that
case — and renders as its display text only when no URL is present. -/
theorem C4_link_rendering (u t : String) :
    blockToMarkdown (oneLinkBlock (some u) (some t)) = u ∧
    blockToMarkdown (oneLinkBlock (some u) none) = u ∧
    blockToMarkdown (oneLinkBlock none (some t)) = t := by
  refine ⟨?_, ?_, ?_⟩ <;> rfl

/-- C9: a `url_verification` payload is answered with status 200 carrying
exactly the payload's `challenge` value, whatever the token and the rest of
the configuration, and with no destination call and no mapping-store
write. -/
theorem C9_handshake_echo (config : SlackWebhookConfig) (env : DestEnv)
    (token challenge : String) :
    createSlackWebhook config env (.url_verification token challenge) =
      { responses := [.jsonChallenge 200 challenge], posts := [], comments := [], saves := [] } :=
  rfl

/-- A message event in a channel (`"C2"`) absent from `cfgEx`'s mappings. -/
def otherChannelEvent : SlackMessageEvent :=
  { channel := some "C2", ts := some "7.0", text := some "x" }

/-- Destination oracle: `createPost` succeeds on transport with no errors
but its response body carries no created identifier. -/
def envNoId : DestEnv :=
  { postResp := { ok := true, status := 200 }
    commentResp := { ok := true, status := 200 } }

/-- The blocks section of the normalized document, per the spec's reading:
the blocks' joined markdown, or empty when no blocks are given. -/
def blocksSection : Option (List Block) → String
  | some bs => blocksToMarkdown bs
  | none => ""

/-- The attachments section of the normalized document, per the spec's
reading: the attachments' joined markdown, or empty when none are given. -/
def attachmentsSection : Option (List MessageAttachment) → String
  | some l => attachmentsToMarkdown l
  | none => ""

/-- C5: a root message in an admitted channel with no existing mapping for
its own `ts`, whose `createPost` returns a non-empty id, performs exactly
one `createPost` call under the admitted group and exactly one mapping
write keyed by its own `ts` pointing at the returned id. -/
theorem C5_root_message (config : SlackWebhookConfig) (env : DestEnv)
    (event : SlackMessageEvent) (c g t pid : String) (find : String → Option String)
    (hc : event.channel = some c) (hcne : c ≠ "")
    (hg : config.groupMappings c = some g) (hgne : g ≠ "")
    (hts : event.ts = some t) (htne : t ≠ "")
    (hroot : event.thread_ts = none ∨ event.thread_ts = some t)
    (hmap : config.slackIdMap = some find) (hnomap : find t = none)
    (hpost : createPost env.postResp = .ok (some pid)) (hpidne : pid ≠ "") :
    ∃ md, createSlackWebhook config env (.enveloped event) =
      { responses := [.send 200], posts := [(g, md)], comments := [], saves := [(t, pid)] } := by
  simp only [createSlackWebhook, hc, hg, hts, hmap, hpost]
  rcases hroot with h | h <;>
    simp [h, isThreadedReply, truthy, hg, hcne, hgne, htne, hnomap, hpidne]

/-- C5 witness: the root-message theorem instantiated at the concrete
admitted root event `"100.9"` with a successful post creation. -/
theorem C5_root_message_witness :
    ∃ md, createSlackWebhook cfgEx envOk (.enveloped rootEvent) =
      { responses := [.send 200], posts := [("G1", md)], comments := [],
        saves := [("100.9", "NEWP")] } :=
  C5_root_message cfgEx envOk rootEvent "C1" "G1" "100.9" "NEWP" findEx
    rfl (by decide) rfl (by decide) rfl (by decide) (Or.inl rfl) rfl rfl rfl (by decide)

/-- C6: normalization places the primary text, then the blocks' markdown,
then the attachments' markdown, in that fixed order, keeping exactly the
non-empty sections joined by a blank line; and on the spec's example,
text `"hello"` with a single divider block yields `"hello\n\n---"`. -/
theorem C6_sections_fixed_order (t : String)
    (atts : Option (List MessageAttachment)) (blks : Option (List Block)) :
    buildFullMarkdown t atts blks =
      joinWith "\n\n" (([t, blocksSection blks, attachmentsSection atts]).filter (· ≠ "")) ∧
    buildFullMarkdown "hello" none (some [.divider]) = "hello\n\n---" := by
  refine ⟨?_, rfl⟩
  rcases blks with _ | bs <;> rcases atts with _ | as_ <;>
    simp only [buildFullMarkdown, blocksSection, attachmentsSection, List.filter] <;>
    try rcases bs with _ | ⟨b, bs2⟩ <;>
    try rcases as_ with _ | ⟨a, as2⟩
  all_goals (split_ifs <;> simp_all [joinWith])

/-- C7: when both destination mutations would fail (transport or semantic
error), no event — whatever its shape — produces a mapping-store write:
the mapping state is unchanged on dispatch failure. -/
theorem C7_no_save_on_failure (config : SlackWebhookConfig) (env : DestEnv)
    (payload : SlackWebhookPayload)
    (hp : isFailure (createPost env.postResp) = true)
    (hcm : isFailure (createComment env.commentResp) = true) :
    (createSlackWebhook config env payload).saves = [] := by
  cases payload with
  | url_verification tok ch => rfl
  | enveloped e =>
    rcases hE : createPost env.postResp with msg | v
    · rcases hF : createComment env.commentResp with msg2 | w
      · simp only [createSlackWebhook, hE, hF]
        repeat' split
        all_goals rfl
      · rw [hF] at hcm
        simp [isFailure] at hcm
    · rw [hE] at hp
      simp [isFailure] at hp

/-- C7 witness: with a transport-failing destination, the concrete root
event produces no mapping-store write. -/
theorem C7_no_save_on_failure_witness :
    (createSlackWebhook cfgEx envFail (.enveloped rootEvent)).saves = [] :=
  C7_no_save_on_failure cfgEx envFail (.enveloped rootEvent) rfl rfl

/-- C8: a message event whose channel is absent from the channel-to-group
mappings terminates with only 200 acknowledgments — no error signal — and
zero destination calls and zero mapping-store writes. -/
theorem C8_unmapped_channel_skips (config : SlackWebhookConfig) (env : DestEnv)
    (event : SlackMessageEvent) (c : String)
    (hc : event.channel = some c) (hg : config.groupMappings c = none) :
    createSlackWebhook config env (.enveloped event) =
      { responses := [.send 200, .send 200], posts := [], comments := [], saves := [] } := by
  by_cases hce : c = "" <;> simp [createSlackWebhook, hc, hg, truthy, hce]

/-- C8 witness: the unmapped-channel theorem instantiated at a concrete
event in channel `"C2"`, which `cfgEx` does not admit. -/
theorem C8_unmapped_channel_skips_witness :
    createSlackWebhook cfgEx envOk (.enveloped otherChannelEvent) =
      { responses := [.send 200, .send 200], posts := [], comments := [], saves := [] } :=
  C8_unmapped_channel_skips cfgEx envOk otherChannelEvent "C2" rfl rfl

/-- C10: a root message whose `createPost` succeeds at the transport level
with no reported errors but returns no created identifier completes with
only the early acknowledgment — no error response — having made the one
post call but no mapping-store write. -/
theorem C10_missing_id_silent (config : SlackWebhookConfig) (env : DestEnv)
    (event : SlackMessageEvent) (c g t : String) (find : String → Option String)
    (hc : event.channel = some c) (hcne : c ≠ "")
    (hg : config.groupMappings c = some g) (hgne : g ≠ "")
    (hts : event.ts = some t) (htne : t ≠ "")
    (hroot : event.thread_ts = none ∨ event.thread_ts = some t)
    (hmap : config.slackIdMap = some find) (hnomap : find t = none)
    (hpost : createPost env.postResp = .ok none) :
    ∃ md, createSlackWebhook config env (.enveloped event) =
      { responses := [.send 200], posts := [(g, md)], comments := [], saves := [] } := by
  simp only [createSlackWebhook, hc, hg, hts, hmap, hpost]
  rcases hroot with h | h <;>
    simp [h, isThreadedReply, truthy, hg, hcne, hgne, htne, hnomap]

/-- C10 witness: the missing-id theorem instantiated at the concrete root
event with a 2xx, error-free response carrying no created id. -/
theorem C10_missing_id_silent_witness :
    ∃ md, createSlackWebhook cfgEx envNoId (.enveloped rootEvent) =
      { responses := [.send 200], posts := [("G1", md)], comments := [], saves := [] } :=
  C10_missing_id_silent cfgEx envNoId rootEvent "C1" "G1" "100.9" findEx
    rfl (by decide) rfl (by decide) rfl (by decide) (Or.inl rfl) rfl rfl rfl

end SlackToSlashwork
